import Mathlib

/-!
Shallow embedding of the auth-rs WebAuthn relying-party library
(src/src/common/cose/**, src/src/webauthn/**, src/src/register/**).

Conventions of the embedding:
* Rust `Vec<u8>` / byte slices become `List Nat` (each entry < 256 is not
  enforced, matching the fact that the claims never depend on it).
* Rust `String` becomes Lean `String`; `str::find` is modelled on the
  character list (`String.data`), which agrees with byte indices on ASCII.
* External library calls (serde_cbor / serde_json byte parsing, base64
  decoding, SHA-256, X.509 parsing, ECDSA verification) are parameters:
  the functions of this file are parametric in those primitives and embed
  everything the repository itself computes.
* Rust functions that can `panic!` (out-of-range slicing, explicit
  `panic!`, `unwrap()`) return `POutcome`, whose `panicked` constructor
  records that the source panics on that input; `Result<T, E>` returns
  with no panic possibility stay `Except`.
-/

namespace AuthRs

/-- Outcome of running a Rust function that may panic: either a panic,
a typed error (`Err`), or a success (`Ok`). -/
inductive POutcome (ε : Type) (α : Type) where
  | panicked : POutcome ε α
  | error : ε → POutcome ε α
  | ok : α → POutcome ε α
deriving Repr, DecidableEq

/-- Lift a `Result` (no panic possible) into `POutcome`. -/
def POutcome.ofExcept : Except ε α → POutcome ε α
  | .ok a => .ok a
  | .error e => .error e

/-- Big-endian interpretation of a byte list (`u16::from_be_bytes`,
`u32::from_be_bytes`). -/
def beNat (l : List Nat) : Nat := l.foldl (fun a b => 256 * a + b) 0

/-- UTF-8 bytes of a string; the repository only ever hashes ASCII
relying-party ids, where this agrees with `str::as_bytes`. -/
def strBytes (s : String) : List Nat := s.data.map Char.toNat

/-! ## CBOR values and COSE maps (src/src/common/cose.rs) -/

/-- The fragment of `serde_cbor::Value` the COSE decoder inspects. -/
inductive Value where
  | integer : Int → Value
  | bytes : List Nat → Value
  | text : String → Value
  | array : List Value → Value
deriving Repr

/-- `CoseMap = BTreeMap<i32, Value>`, modelled as an association list with
first-match lookup (BTreeMap keys are unique). -/
def CoseMap := List (Int × Value)

/-- `BTreeMap::get`. -/
def CoseMap.get (m : CoseMap) (k : Int) : Option Value :=
  (m.find? (fun p => p.1 == k)).map (fun p => p.2)

/-- `CoseError` (src/src/common/cose.rs). -/
inductive CoseError where
  | UnknownKey : String → CoseError
  | InvalidField : String → Int → CoseError
  | InvalidType : String → CoseError
  | MissingFields : CoseError
  | UnsupportedAlgorithm : CoseError
deriving Repr, DecidableEq

/-! ## ES256 parameters (src/src/common/cose/key/algorithm/es256.rs) -/

/-- `Curve`: the elliptic curves the decoder recognises. -/
inductive Curve where
  | P256
  | P384
  | P512
  | X25519
  | X448
  | Ed25519
  | Ed448
deriving Repr, DecidableEq

/-- `Curve::from_cbor`: reads label -1 (crv) of the COSE map. -/
def Curve.from_cbor (map : CoseMap) : Except CoseError Curve :=
  match map.get (-1) with
  | none => .error .MissingFields
  | some (.integer i) =>
    if i = 1 then .ok .P256
    else if i = 2 then .ok .P384
    else if i = 3 then .ok .P512
    else if i = 4 then .ok .X25519
    else if i = 5 then .ok .X448
    else if i = 6 then .ok .Ed25519
    else if i = 7 then .ok .Ed448
    else .error (.InvalidField "cose.ec2.crv" i)
  | some _ => .error (.InvalidType "cose.ec2.crv")

/-- `ES256Params`. -/
structure ES256Params where
  crv : Curve
  x : Option (List Nat)
  y : Option (List Nat)
  d : Option (List Nat)
deriving Repr, DecidableEq

/-- The byte-extraction match that `ES256Params::from_cbor` repeats for
each of the labels x (-2), y (-3) and d (-4): present bytes stay, a
present non-bytes value is an `InvalidType` error, an absent label is
`None`. -/
def ES256Params.fieldBytes (v : Option Value) (label : String) :
    Except CoseError (Option (List Nat)) :=
  match v with
  | some (.bytes b) => .ok (some b)
  | some _ => .error (.InvalidType label)
  | none => .ok none

/-- `ES256Params::from_cbor`: curve from label -1, then the x/y/d byte
strings; at least one of \x7bx together with y\x7d or \x7bd\x7d must be present.
The local names `is_public`/`is_private` are swapped relative to their
meaning, exactly as in the source. -/
def ES256Params.from_cbor (map : CoseMap) : Except CoseError ES256Params :=
  match Curve.from_cbor map with
  | .error e => .error e
  | .ok crv =>
    match fieldBytes (map.get (-2)) "cose.ec2.x" with
    | .error e => .error e
    | .ok x =>
      match fieldBytes (map.get (-3)) "cose.ec2.y" with
      | .error e => .error e
      | .ok y =>
        match fieldBytes (map.get (-4)) "cose.ec2.d" with
        | .error e => .error e
        | .ok d =>
          let is_public := d.isSome
          let is_private := x.isSome && y.isSome
          if !is_public && !is_private then
            .error .MissingFields
          else
            .ok { crv := crv, x := x, y := y, d := d }

/-- `ES256Params::to_raw` (also `as_raw`/`to_x962_raw` in the sibling
copies): X9.62 uncompressed form `0x04 || x || y` when both public
coordinates are present. -/
def ES256Params.to_raw (p : ES256Params) : Option (List Nat) :=
  match p.x with
  | some x =>
    match p.y with
    | some y => some (0x04 :: (x ++ y))
    | none => none
  | none => none

/-! ## COSE key (src/src/common/cose/key.rs, key/algorithm.rs) -/

/-- `CoseKeyAlgorithm`. -/
inductive CoseKeyAlgorithm where
  | ES256 : ES256Params → CoseKeyAlgorithm
deriving Repr, DecidableEq

/-- `CoseKeyAlgorithm::from_cbor`: label 3 (alg) must be the integer -7
(ES256); any other integer is `UnknownKey`, any other type `InvalidType`. -/
def CoseKeyAlgorithm.from_cbor (map : CoseMap) : Except CoseError CoseKeyAlgorithm :=
  match map.get 3 with
  | none => .error .MissingFields
  | some (.integer i) =>
    if i = -7 then
      (ES256Params.from_cbor map).map CoseKeyAlgorithm.ES256
    else
      .error (.UnknownKey (toString i))
  | some _ => .error (.InvalidType "cose.alg")

/-- `CoseKeyType`. -/
inductive CoseKeyType where
  | Reserved
  | OKP
  | EC2
  | Symmetric
deriving Repr, DecidableEq

/-- Two's-complement truncation `i128 as i32` used by
`CoseKeyType::from_cbor`. -/
def i32cast (i : Int) : Int := (i + 2 ^ 31) % 2 ^ 32 - 2 ^ 31

/-- `CoseKeyType::from_cbor`: label 1 (kty), cast `as i32`. -/
def CoseKeyType.from_cbor (map : CoseMap) : Except CoseError CoseKeyType :=
  match map.get 1 with
  | none => .error .MissingFields
  | some (.integer i) =>
    if i32cast i = 0 then .ok .Reserved
    else if i32cast i = 1 then .ok .OKP
    else if i32cast i = 2 then .ok .EC2
    else if i32cast i = 4 then .ok .Symmetric
    else .error (.UnknownKey (toString i))
  | some _ => .error (.InvalidType "cose.kty")

/-- `CoseKeyOps`. -/
inductive CoseKeyOps where
  | Unknown
  | Sign
  | Verify
  | Encrypt
  | Decrypt
  | WrapKey
  | UnwrapKey
  | DeriveKey
  | DeriveBits
  | MacCreate
  | MacVerify
deriving Repr, DecidableEq

/-- `TryFrom<i128> for CoseKeyOps` (only the `Ok` side is observable
through `from_cbor`). -/
def CoseKeyOps.try_from (i : Int) : Option CoseKeyOps :=
  if i = 1 then some .Sign
  else if i = 2 then some .Verify
  else if i = 3 then some .Encrypt
  else if i = 4 then some .Decrypt
  else if i = 5 then some .WrapKey
  else if i = 6 then some .UnwrapKey
  else if i = 7 then some .DeriveKey
  else if i = 8 then some .DeriveBits
  else if i = 9 then some .MacCreate
  else if i = 10 then some .MacVerify
  else none

/-- `CoseKeyOps::from_cbor`: label 4 (key_ops); silently drops entries
that are not recognised integers. -/
def CoseKeyOps.from_cbor (map : CoseMap) : Option (List CoseKeyOps) :=
  match map.get 4 with
  | none => none
  | some (.array kops) =>
    some (kops.filterMap (fun v =>
      match v with
      | .integer i => CoseKeyOps.try_from i
      | _ => none))
  | some _ => some []

/-- `CoseKey`. -/
structure CoseKey where
  kty : CoseKeyType
  kid : Option (List Nat)
  alg : CoseKeyAlgorithm
  key_ops : Option (List CoseKeyOps)
  iv : Option (List Nat)
deriving Repr, DecidableEq

/-- `CoseKey::parse`: the `serde_cbor::from_slice` byte-level CBOR parse
is the primitive `parseCbor`; the field extraction and the builder
(whose `finish` always succeeds here because kty and alg were just set)
are embedded from the source. -/
def CoseKey.parse (parseCbor : List Nat → Except CoseError CoseMap)
    (data : List Nat) : Except CoseError CoseKey := do
  let cose ← parseCbor data
  let kty ← CoseKeyType.from_cbor cose
  let alg ← CoseKeyAlgorithm.from_cbor cose
  let key_ops := CoseKeyOps.from_cbor cose
  let kid := match cose.get 2 with
    | some (.bytes b) => some b
    | _ => none
  let iv := match cose.get 5 with
    | some (.bytes b) => some b
    | _ => none
  .ok { kty := kty, kid := kid, alg := alg, key_ops := key_ops, iv := iv }

/-- `CoseKey::as_raw`. -/
def CoseKey.as_raw (k : CoseKey) : Option (List Nat) :=
  match k.alg with
  | .ES256 params => params.to_raw

/-! ## Configuration (src/src/webauthn/config.rs) -/

/-- Prefix test on character lists (the pattern matcher underlying
`str::find`). -/
def leadsWith : List Char → List Char → Bool
  | [], _ => true
  | _ :: _, [] => false
  | a :: as, b :: bs => a == b && leadsWith as bs

/-- `str::find(pattern)`: index of the first occurrence of `pat` in `s`
(char index; identical to the Rust byte index on ASCII input). -/
def findSub (pat : List Char) : List Char → Option Nat
  | [] => if leadsWith pat [] then some 0 else none
  | c :: t =>
    if leadsWith pat (c :: t) then some 0
    else (findSub pat t).map (fun i => i + 1)

/-- `WebAuthnConfig` (re-exported as `Config`). -/
structure WebAuthnConfig where
  rp_origin : String
  rp_id : String
deriving Repr, DecidableEq

/-- `WebAuthnConfig::new`: `split_at(find("://").map(|i| i+3).unwrap_or(0))`
then `split_at(find("/").unwrap_or(len))`, keeping the left piece as the
RP id and the original origin untouched. -/
def WebAuthnConfig.new (origin : String) : WebAuthnConfig :=
  let id := origin.data
  let i := match findSub [':', '/', '/'] id with
    | some j => j + 3
    | none => 0
  let uri := id.drop i
  let domain := uri.take ((findSub ['/'] uri).getD uri.length)
  { rp_origin := origin, rp_id := String.mk domain }

/-- Claim-side formulation: everything up to and including the first
`://` is removed, if present. -/
def afterSchemeMarker : List Char → Option (List Char)
  | [] => none
  | c :: t =>
    if leadsWith [':', '/', '/'] (c :: t) then some ((c :: t).drop 3)
    else afterSchemeMarker t

/-- Claim-side formulation of scheme stripping. -/
def stripSchemeSpec (s : List Char) : List Char :=
  match afterSchemeMarker s with
  | some r => r
  | none => s

/-- Claim-side formulation of path stripping: keep everything before the
first `/`. -/
def stripPathSpec (s : List Char) : List Char :=
  s.takeWhile (fun c => c != '/')

/-! ## Client data (src/src/webauthn/response/client_data.rs) -/

/-- `WebAuthnType` (src/src/webauthn.rs). -/
inductive WebAuthnType where
  | Create
  | Get
deriving Repr, DecidableEq

/-- `TokenBindingStatus`. -/
inductive TokenBindingStatus where
  | Present
  | Supported
deriving Repr, DecidableEq

/-- `TokenBinding`. -/
structure TokenBinding where
  status : TokenBindingStatus
  id : String
deriving Repr, DecidableEq

/-- `ClientData`; `cross_origin` deserialises with `#[serde(default)]`,
so an absent field is `false`. -/
structure ClientData where
  ty : WebAuthnType
  challenge : String
  origin : String
  cross_origin : Bool
  token_binding : Option TokenBinding
deriving Repr, DecidableEq

/-- `ClientDataError`. -/
inductive ClientDataError where
  | InvalidWebAuthnType : WebAuthnType → WebAuthnType → ClientDataError
  | ChallengeMismatch : ClientDataError
  | OriginMismatch : String → String → ClientDataError
deriving Repr, DecidableEq

/-- `ClientData::validate`: type, then challenge, then origin. -/
def ClientData.validate (cd : ClientData) (ty : WebAuthnType)
    (cfg : WebAuthnConfig) (challenge : String) : Except ClientDataError Unit :=
  if cd.ty ≠ ty then
    .error (.InvalidWebAuthnType cd.ty ty)
  else if cd.challenge ≠ challenge then
    .error .ChallengeMismatch
  else if cd.origin ≠ cfg.rp_origin then
    .error (.OriginMismatch cd.origin cfg.rp_origin)
  else
    .ok ()

/-! ## Errors of the webauthn response tree
(src/src/webauthn/response/attestation/error.rs, auth_data.rs,
attestation/fidou2f.rs, src/src/webauthn/error.rs) -/

/-- `AttestationError` (webauthn tree). -/
inductive AttestationError where
  | RpIdHashMismatch
  | UserNotPresent
  | UserNotVerified
  | TooManyX509Certs
  | BadCert
  | UnsupportedAlgorithm
  | UnsupportedAttestationFormat
  | InvalidCoseKey
  | BadCredentialPublicKey
  | BadSignature
deriving Repr, DecidableEq

/-- `U2fError` (src/src/webauthn/response/attestation/fidou2f.rs). -/
inductive U2fError where
  | TooManyX509Certificates
  | BadX509Certificate
deriving Repr, DecidableEq

/-- `AuthError` (src/src/webauthn/response/auth_data.rs). -/
inductive AuthError where
  | RpIdHashMismatch
  | UserNotPresent
  | UserNotVerified
  | CredDataMissing
  | PublicKeyMissing
  | PrivateKeyMissing
  | U2fError : U2fError → AuthError
  | SignatureVerificationFailed
deriving Repr, DecidableEq

/-- Top-level `WebAuthnError` (re-exported as `Error`);
`Base64Error`/`JsonError`/`CborError` payloads are collapsed because
they come from external libraries. -/
inductive WebAuthnError where
  | IncorrectResponseType
  | InvalidPublicKey
  | SignatureFailed
  | DeviceNotFound
  | AuthenticationError : AuthError → WebAuthnError
  | ClientData : ClientDataError → WebAuthnError
  | Attestation : AttestationError → WebAuthnError
  | Base64Error
  | JsonError
  | CborError
deriving Repr, DecidableEq

/-! ## Authenticator data (src/src/webauthn/response/auth_data.rs) -/

/-- `CredentialData`. -/
structure CredentialData where
  aa_guid : List Nat
  length : Nat
  cred_id : List Nat
  cred_pub_key : CoseKey
deriving Repr, DecidableEq

/-- `CredentialData::parse`: the source slices `data[..16]`,
`data[16..18]` and `data[18..18+L]` without bounds checks, so a buffer
shorter than any of those ranges panics; a COSE error is converted via
`From<CoseError>` into `InvalidCoseKey`. -/
def CredentialData.parse (parseCbor : List Nat → Except CoseError CoseMap)
    (data : List Nat) : POutcome AttestationError CredentialData :=
  if data.length < 16 then .panicked
  else if data.length < 18 then .panicked
  else
    let len := 256 * data.getD 16 0 + data.getD 17 0
    if data.length < 18 + len then .panicked
    else
      match CoseKey.parse parseCbor (data.drop (18 + len)) with
      | .error _ => .error .InvalidCoseKey
      | .ok key =>
        .ok { aa_guid := data.take 16, length := len,
              cred_id := (data.drop 18).take len, cred_pub_key := key }

/-- `AuthData`. -/
structure AuthData where
  rp_id_hash : List Nat
  flags : Nat
  counter : Nat
  cred_data : Option CredentialData
deriving Repr, DecidableEq

/-- `AuthDataFlag`. -/
inductive AuthDataFlag where
  | UserPresent
  | UserVerified
  | AttestedCredentialData
  | ExtensionData
deriving Repr, DecidableEq

/-- `AuthData::parse`: slices `data[..32]` and `data[33..37]` without
bounds checks (panic when shorter); credential data is parsed exactly
when the buffer is longer than 37 bytes — the flags byte is never
consulted and no exact-length check is performed. -/
def AuthData.parse (parseCbor : List Nat → Except CoseError CoseMap)
    (data : List Nat) : POutcome AttestationError AuthData :=
  if data.length < 32 then .panicked
  else if data.length < 37 then .panicked
  else
    let step : POutcome AttestationError (Option CredentialData) :=
      if 37 < data.length then
        match CredentialData.parse parseCbor (data.drop 37) with
        | .panicked => .panicked
        | .error e => .error e
        | .ok cd => .ok (some cd)
      else .ok none
    match step with
    | .panicked => .panicked
    | .error e => .error e
    | .ok cd =>
      .ok { rp_id_hash := data.take 32, flags := data.getD 32 0,
            counter := beNat ((data.drop 33).take 4), cred_data := cd }

/-- `AuthData::is_flag_set`. -/
def AuthData.is_flag_set (a : AuthData) (f : AuthDataFlag) : Bool :=
  match f with
  | .UserPresent => a.flags &&& 0x01 == 0x01
  | .UserVerified => a.flags &&& 0x04 == 0x04
  | .AttestedCredentialData => a.flags &&& 0x40 == 0x40
  | .ExtensionData => a.flags &&& 0x80 == 0x80

/-- `AuthData::is_user_present`. -/
def AuthData.is_user_present (a : AuthData) : Bool :=
  a.is_flag_set .UserPresent

/-- `AuthData::has_credential`. -/
def AuthData.has_credential (a : AuthData) : Bool :=
  a.is_flag_set .AttestedCredentialData

/-- `AuthData::validate`: RP-ID hash comparison against
`SHA256(cfg.id())` (the hash itself is the primitive `sha256`), then
the user-present flag. -/
def AuthData.validate (sha256 : List Nat → List Nat) (a : AuthData)
    (cfg : WebAuthnConfig) : Except AuthError Unit :=
  if a.rp_id_hash ≠ sha256 (strBytes cfg.rp_id) then
    .error .RpIdHashMismatch
  else if !a.is_user_present then
    .error .UserNotPresent
  else
    .ok ()

/-- `AuthData::public_key`. -/
def AuthData.public_key (a : AuthData) : Except AuthError (List Nat) :=
  match a.cred_data with
  | none => .error .CredDataMissing
  | some cd =>
    match cd.cred_pub_key.as_raw with
    | none => .error .PublicKeyMissing
    | some raw => .ok raw

/-- `AuthData::credential_id`. -/
def AuthData.credential_id (a : AuthData) : Except AuthError (List Nat) :=
  match a.cred_data with
  | none => .error .CredDataMissing
  | some cd => .ok cd.cred_id

/-! ## FIDO-U2F attestation statement
(src/src/webauthn/response/attestation/fidou2f.rs).  `Cert` is the
abstract type of parsed X.509 end-entity certificates; `parseCert`
models `EndEntityCert::from` and `verifySig` models
`EndEntityCert::verify_signature(&ECDSA_P256_SHA256, data, sig)`. -/

/-- `FidoU2fAttestation` (the `attStmt` of the fido-u2f format). -/
structure FidoU2fAttestation where
  x5c : List (List Nat)
  sig : List Nat
deriving Repr, DecidableEq

/-- `FidoU2fAttestation::get_cert`: requires exactly one certificate
(the same `TooManyX509Certificates` error covers zero and more than
one), then parses it. -/
def FidoU2fAttestation.get_cert {Cert : Type}
    (parseCert : List Nat → Option Cert)
    (a : FidoU2fAttestation) : Except U2fError Cert :=
  if a.x5c.length ≠ 1 then .error .TooManyX509Certificates
  else
    match parseCert (a.x5c.headD []) with
    | none => .error .BadX509Certificate
    | some c => .ok c

/-- `FidoU2fAttestation::validate`: builds
`0x00 || rpIdHash || clientDataHash || credentialId || publicKeyU2F`
and verifies `sig` against it with the certificate public key, then
returns `(credentialId, publicKeyU2F)`. -/
def FidoU2fAttestation.validate {Cert : Type}
    (parseCert : List Nat → Option Cert)
    (verifySig : Cert → List Nat → List Nat → Bool)
    (a : FidoU2fAttestation) (auth_data : AuthData)
    (client_data_hash : List Nat) :
    Except AuthError (List Nat × List Nat) :=
  match a.get_cert parseCert with
  | .error e => .error (AuthError.U2fError e)
  | .ok cert =>
    match auth_data.public_key with
    | .error e => .error e
    | .ok pubkey =>
      match auth_data.credential_id with
      | .error e => .error e
      | .ok cred_id =>
        let verification_data :=
          0x00 :: (auth_data.rp_id_hash ++ client_data_hash ++ cred_id ++ pubkey)
        if verifySig cert verification_data a.sig then
          .ok (cred_id, pubkey)
        else
          .error AuthError.SignatureVerificationFailed

/-- `AttestationFormat` (src/src/webauthn/response/attestation/format.rs);
only the `fmt` dispatch matters, `Packed` stands for every format other
than fido-u2f. -/
inductive AttestationFormat where
  | Packed
  | FidoU2f : FidoU2fAttestation → AttestationFormat
deriving Repr, DecidableEq

/-! ## Registration and authentication flows
(src/src/webauthn/response.rs) -/

/-- `Device` (src/src/webauthn.rs). -/
structure Device where
  id : List Nat
  pk : List Nat
  count : Nat
deriving Repr, DecidableEq

/-- `Device::new`. -/
def Device.new (id pk : List Nat) (count : Nat) : Device :=
  { id := id, pk := pk, count := count }

/-- External primitives used by the response validators: SHA-256, the
three base64 configurations, the serde JSON/CBOR parses, and ring's
ECDSA-P256-SHA256-ASN.1 verification (public key, message, signature). -/
structure Prims where
  sha256 : List Nat → List Nat
  b64Url : String → Except Unit (List Nat)
  b64UrlNoPad : String → Except Unit (List Nat)
  b64Std : String → Except Unit (List Nat)
  parseClientDataJson : List Nat → Except Unit ClientData
  parseCoseCbor : List Nat → Except CoseError CoseMap
  parseAttestationObject : List Nat → Except Unit (AttestationFormat × List Nat)
  ecdsaVerify : List Nat → List Nat → List Nat → Bool

/-- Modelled from the spec: `attestation::parse` is called by
`CreateResponse::validate` (src/src/webauthn/response.rs line 103) with
the base64-decoded attestation object and must yield the decoded
authenticator data together with the attestation format, but no
function of that name exists under src/ — per the spec ("Parse outer
CBOR map; extract `authData` bytes. Invoke C2 to decode") it CBOR-parses
the outer `\x7b fmt, attStmt, authData \x7d` map (primitive
`parseAttestationObject`) and decodes the `authData` bytes with
`AuthData::parse`. -/
def attestationParse (p : Prims) (data : List Nat) :
    POutcome WebAuthnError (AuthData × AttestationFormat) :=
  match p.parseAttestationObject data with
  | .error _ => .error .CborError
  | .ok (fmt, adBytes) =>
    match AuthData.parse p.parseCoseCbor adBytes with
    | .panicked => .panicked
    | .error e => .error (.Attestation e)
    | .ok ad => .ok (ad, fmt)

/-- `CreateResponse`. -/
structure CreateResponse where
  attestation_data : String
  client_data_json : String
deriving Repr, DecidableEq

/-- `CreateResponse::validate`: base64url-decode and hash the client
data, decode it as JSON, base64(standard)-decode and parse the
attestation object, validate client data and authenticator data, then
dispatch on the attestation format; returns
`(credentialId, publicKey, signCount)`.  The response `id`/`rawId`
fields are not inputs: no cross-check against them occurs. -/
def CreateResponse.validate {Cert : Type}
    (parseCert : List Nat → Option Cert)
    (verifySig : Cert → List Nat → List Nat → Bool)
    (p : Prims) (r : CreateResponse) (ty : WebAuthnType)
    (cfg : WebAuthnConfig) (challenge : String) :
    POutcome WebAuthnError (List Nat × List Nat × Nat) :=
  match p.b64Url r.client_data_json with
  | .error _ => .error .Base64Error
  | .ok client_data_bytes =>
    let client_data_hash := p.sha256 client_data_bytes
    match p.parseClientDataJson client_data_bytes with
    | .error _ => .error .JsonError
    | .ok client_data =>
      match p.b64Std r.attestation_data with
      | .error _ => .error .Base64Error
      | .ok attBytes =>
        match attestationParse p attBytes with
        | .panicked => .panicked
        | .error e => .error e
        | .ok (auth_data, attestation_format) =>
          match client_data.validate ty cfg challenge with
          | .error e => .error (.ClientData e)
          | .ok _ =>
            match auth_data.validate p.sha256 cfg with
            | .error e => .error (.AuthenticationError e)
            | .ok _ =>
              match attestation_format with
              | .FidoU2f fido =>
                match fido.validate parseCert verifySig auth_data
                    client_data_hash with
                | .error e => .error (.AuthenticationError e)
                | .ok (cred_id, cred_pubkey) =>
                  .ok (cred_id, cred_pubkey, auth_data.counter)
              | _ =>
                .error (.Attestation .UnsupportedAttestationFormat)

/-- `GetResponse`. -/
structure GetResponse where
  authenticator_data : List Nat
  signature : List Nat
  user_handle : Option String
  client_data_json : List Nat
deriving Repr, DecidableEq

/-- `GetResponse::validate`.  The Rust function returns
`Result<(), Error>`; its only other observable behaviour is the
`println!` executed when the stored device count differs from the
received count, which this embedding models by returning the list of
`(stored, received)` pairs printed on the success path (always `[]` or
a single pair).  No sign count and no user handle are returned. -/
def GetResponse.validate (p : Prims) (r : GetResponse) (ty : WebAuthnType)
    (cfg : WebAuthnConfig) (challenge : String) (id : String)
    (devices : List Device) : POutcome WebAuthnError (List (Nat × Nat)) :=
  match p.parseClientDataJson r.client_data_json with
  | .error _ => .error .JsonError
  | .ok client_data =>
    match client_data.validate ty cfg challenge with
    | .error e => .error (.ClientData e)
    | .ok _ =>
      match AuthData.parse p.parseCoseCbor r.authenticator_data with
      | .panicked => .panicked
      | .error e => .error (.Attestation e)
      | .ok auth_data =>
        match auth_data.validate p.sha256 cfg with
        | .error e => .error (.AuthenticationError e)
        | .ok _ =>
          let hash := p.sha256 r.client_data_json
          let verification_data := r.authenticator_data ++ hash
          match p.b64UrlNoPad id with
          | .error _ => .error .Base64Error
          | .ok cred_id =>
            let matching_devices := devices.filter (fun d => d.id == cred_id)
            if matching_devices.length ≠ 1 then
              .error .DeviceNotFound
            else
              let device := matching_devices.headD (Device.new [] [] 0)
              if p.ecdsaVerify device.pk verification_data r.signature then
                if device.count ≠ auth_data.counter then
                  .ok [(device.count, auth_data.counter)]
                else
                  .ok []
              else
                .error .SignatureFailed

/-- `ResponseType`. -/
inductive ResponseType where
  | Create : CreateResponse → ResponseType
  | Get : GetResponse → ResponseType
deriving Repr, DecidableEq

/-- `Response`. -/
structure Response where
  id : String
  raw_id : String
  response : ResponseType
  ty : String
deriving Repr, DecidableEq

/-- `register`: dispatches on the response type and wraps the validated
triple into a `Device`; no use is made of `form.id` or `form.raw_id`. -/
def register {Cert : Type}
    (parseCert : List Nat → Option Cert)
    (verifySig : Cert → List Nat → List Nat → Bool)
    (p : Prims) (form : Response) (cfg : WebAuthnConfig)
    (challenge : String) : POutcome WebAuthnError Device :=
  match form.response with
  | .Create resp =>
    match resp.validate parseCert verifySig p .Create cfg challenge with
    | .panicked => .panicked
    | .error e => .error e
    | .ok (id, pk, count) => .ok (Device.new id pk count)
  | _ => .error .IncorrectResponseType

/-- `authenticate`: dispatches on the response type and validates the
assertion against the device list; succeeds with no further payload. -/
def authenticate (p : Prims) (form : Response) (cfg : WebAuthnConfig)
    (challenge : String) (devices : List Device) :
    POutcome WebAuthnError (List (Nat × Nat)) :=
  match form.response with
  | .Get resp => resp.validate p .Get cfg challenge form.id devices
  | _ => .error .IncorrectResponseType

end AuthRs

namespace AuthRs.Register

/-! ## The older register tree (src/src/register/response/**), kept in
its own namespace.  Its validator panics instead of returning typed
errors. -/

/-- `AttestationAuthData` (src/src/register/response/attestation/auth_data.rs,
identical to src/src/webauthn/response/attestation/auth_data.rs). -/
structure AttestationAuthData where
  rp_id_hash : List Nat
  flags : Nat
  counter : Nat
  aa_guid : List Nat
  length : Nat
  cred_id : List Nat
  key : CoseKey
deriving Repr, DecidableEq

/-- `AttestationAuthData::is_flag_set`. -/
def AttestationAuthData.is_flag_set (a : AttestationAuthData)
    (f : AuthDataFlag) : Bool :=
  match f with
  | .UserPresent => a.flags &&& 0x01 == 0x01
  | .UserVerified => a.flags &&& 0x04 == 0x04
  | .AttestedCredentialData => a.flags &&& 0x40 == 0x40
  | .ExtensionData => a.flags &&& 0x80 == 0x80

/-- `AttestationAuthData::parse`: unconditionally slices the attested
credential data (`data[37..53]`, `data[53..55]`, `data[55..55+L]`)
with no bounds checks — any buffer too short for those ranges panics. -/
def AttestationAuthData.parse (parseCbor : List Nat → Except CoseError CoseMap)
    (data : List Nat) : POutcome CoseError AttestationAuthData :=
  if data.length < 32 then .panicked
  else if data.length < 37 then .panicked
  else if data.length < 53 then .panicked
  else if data.length < 55 then .panicked
  else
    let len := 256 * data.getD 53 0 + data.getD 54 0
    if data.length < 55 + len then .panicked
    else
      match CoseKey.parse parseCbor (data.drop (55 + len)) with
      | .error e => .error e
      | .ok key =>
        .ok { rp_id_hash := data.take 32, flags := data.getD 32 0,
              counter := beNat ((data.drop 33).take 4),
              aa_guid := (data.drop 37).take 16,
              length := len, cred_id := (data.drop 55).take len, key := key }

/-- `FidoU2fAttestation` (src/src/register/response/attestation/format/fidou2f.rs). -/
structure FidoU2fAttestation where
  x5c : List (List Nat)
  sig : List Nat
deriving Repr, DecidableEq

/-- `FidoU2fAttestation::get_cert` of the register tree:
`panic!("fido-u2f: x5c: too many certs")` when the certificate count is
not exactly 1, and `X509::from_der(..).unwrap()` — a panic — when the
single certificate fails to parse. -/
def FidoU2fAttestation.get_cert {Cert : Type}
    (parseCert : List Nat → Option Cert)
    (a : FidoU2fAttestation) : POutcome Unit Cert :=
  if a.x5c.length ≠ 1 then .panicked
  else
    match parseCert (a.x5c.headD []) with
    | none => .panicked
    | some c => .ok c

/-- `AttestationFormat` (src/src/register/response/attestation/format.rs). -/
inductive AttestationFormat where
  | Packed
  | FidoU2f : FidoU2fAttestation → AttestationFormat
deriving Repr, DecidableEq

/-- The `self.fmt.get_cert()` call of `AttestationData::validate`: the
source has no `get_cert` on the `Packed` arm (`unimplemented!`-style
hole, modelled as a panic) and dispatches to the fido-u2f `get_cert`
otherwise. -/
def AttestationFormat.get_cert {Cert : Type}
    (parseCert : List Nat → Option Cert)
    (f : AttestationFormat) : POutcome Unit Cert :=
  match f with
  | .Packed => .panicked
  | .FidoU2f fido => fido.get_cert parseCert

/-- `AttestationData` (src/src/register/response/attestation.rs). -/
structure AttestationData where
  fmt : AttestationFormat
  auth_data : AttestationAuthData
deriving Repr, DecidableEq

/-- `AttestationData::validate` of the register tree: executes
`panic!("attestion object: user not present")` when the user-present
flag is clear (the source itself carries a `// TODO change to error`
on the sibling panic), then discards the result of
`self.fmt.get_cert()` and returns unit. -/
def AttestationData.validate {Cert : Type}
    (parseCert : List Nat → Option Cert)
    (d : AttestationData) : POutcome Unit Unit :=
  if !(d.auth_data.is_flag_set .UserPresent) then .panicked
  else
    match d.fmt.get_cert parseCert with
    | .panicked => .panicked
    | .error e => .error e
    | .ok _ => .ok ()

end AuthRs.Register

namespace AuthRs

/-! ## Concrete fixtures used by the witnesses and counterexamples -/

/-- A CBOR parser primitive that always fails (never reached in the
fixtures that use it). -/
def pcFail : List Nat → Except CoseError CoseMap :=
  fun _ => .error .MissingFields

/-- The configuration of the worked examples. -/
def cfgW : WebAuthnConfig := WebAuthnConfig.new "https://app.example.com"

/-- A COSE map fixture: EC2 / ES256 / P-256 with public coordinates. -/
def coseMapW : CoseMap :=
  [(1, .integer 2), (3, .integer (-7)), (-1, .integer 1),
   (-2, .bytes [170]), (-3, .bytes [187])]

/-- CBOR parser primitive returning `coseMapW`. -/
def pcCoseW : List Nat → Except CoseError CoseMap :=
  fun _ => .ok coseMapW

/-- A COSE map fixture with alg ES256 (-7) but crv P-384 (2). -/
def mapP384W : CoseMap :=
  [(3, .integer (-7)), (-1, .integer 2), (-2, .bytes [0]), (-3, .bytes [0])]

/-- A COSE map fixture: P-256 private-only key (d present, x/y absent). -/
def mapP256dW : CoseMap :=
  [(-1, .integer 1), (-4, .bytes [3])]

/-- The COSE key decoded from `coseMapW`. -/
def ckW : CoseKey :=
  { kty := .EC2, kid := none,
    alg := .ES256 { crv := .P256, x := some [170], y := some [187], d := none },
    key_ops := none, iv := none }

/-- A concrete attested credential: zero aaGuid, credential id `[9]`,
public key `ckW`. -/
def cdFixW : CredentialData :=
  { aa_guid := List.replicate 16 0, length := 1, cred_id := [9],
    cred_pub_key := ckW }

/-- A decoded `AuthData` carrying `cdFixW`, flags `0x41`, counter 7. -/
def adFixW : AuthData :=
  { rp_id_hash := List.replicate 32 0, flags := 0x41, counter := 7,
    cred_data := some cdFixW }

/-- A fido-u2f statement with one (abstract) certificate and signature
`[6]`. -/
def attFixW : FidoU2fAttestation := { x5c := [[5]], sig := [6] }

/-- 37-byte authenticator data: zero RP-ID hash, flags `0x41`
(UP and AT set), counter 7, no room for credential data. -/
def adBytes37 : List Nat := List.replicate 32 0 ++ [0x41, 0, 0, 0, 7]

/-- 37-byte authenticator data with flags `0x01` (UP only), counter 7. -/
def adBytesGet : List Nat := List.replicate 32 0 ++ [0x01, 0, 0, 0, 7]

/-- 56-byte authenticator data: the 37-byte header with flags `0x41`
followed by a zero aaGuid, credential-id length 1, credential id `[9]`
and an (externally parsed) COSE key. -/
def adBytesAT : List Nat :=
  List.replicate 32 0 ++ [0x41, 0, 0, 0, 7] ++
    (List.replicate 16 0 ++ [0, 1] ++ [9])

/-- Primitives for a successful assertion run: constant SHA-256,
credential id `[1]` from base64url, trivially-true ECDSA. -/
def primsGetW : Prims :=
  { sha256 := fun _ => List.replicate 32 0
    b64Url := fun _ => .ok []
    b64UrlNoPad := fun _ => .ok [1]
    b64Std := fun _ => .ok []
    parseClientDataJson := fun _ =>
      .ok { ty := .Get, challenge := "ch",
            origin := "https://app.example.com", cross_origin := false,
            token_binding := none }
    parseCoseCbor := pcCoseW
    parseAttestationObject := fun _ => .error ()
    ecdsaVerify := fun _ _ _ => true }

/-- The assertion payload of the worked example. -/
def getRespW : GetResponse :=
  { authenticator_data := adBytesGet, signature := [9],
    user_handle := none, client_data_json := [7] }

/-- The assertion response of the worked example. -/
def formGetW : Response :=
  { id := "credid", raw_id := "credid", response := .Get getRespW,
    ty := "public-key" }

/-- The stored device of the worked example: credential id `[1]`,
stored sign count 5. -/
def deviceW : Device := Device.new [1] [2] 5

/-- Primitives for a successful registration run. -/
def primsCreateW : Prims :=
  { sha256 := fun _ => List.replicate 32 0
    b64Url := fun _ => .ok []
    b64UrlNoPad := fun _ => .ok [1]
    b64Std := fun _ => .ok []
    parseClientDataJson := fun _ =>
      .ok { ty := .Create, challenge := "ch",
            origin := "https://app.example.com", cross_origin := false,
            token_binding := none }
    parseCoseCbor := pcCoseW
    parseAttestationObject := fun _ =>
      .ok (.FidoU2f { x5c := [[222]], sig := [1] }, adBytesAT)
    ecdsaVerify := fun _ _ _ => true }

/-- The creation payload of the worked example. -/
def createRespW : CreateResponse :=
  { attestation_data := "att", client_data_json := "cdj" }

/-- The creation response of the worked example; its `id`/`rawId`
decode to `[1]`, while the attested credential id is `[9]`. -/
def formCreateW : Response :=
  { id := "credid", raw_id := "credid", response := .Create createRespW,
    ty := "public-key" }

/-! ## Helper lemmas -/

/-- `afterSchemeMarker` computes the drop-past-the-first-marker of
`findSub`. -/
theorem afterSchemeMarker_eq_findSub (l : List Char) :
    afterSchemeMarker l =
      (findSub [':', '/', '/'] l).map (fun j => l.drop (j + 3)) := by
  induction l with
  | nil => simp [afterSchemeMarker, findSub, leadsWith]
  | cons c t ih =>
    by_cases hp : leadsWith [':', '/', '/'] (c :: t) = true
    · simp [afterSchemeMarker, findSub, hp]
    · simp only [afterSchemeMarker, findSub, hp, Bool.false_eq_true,
        if_false, ih]
      cases hf : findSub [':', '/', '/'] t with
      | none => simp
      | some j =>
        simp [List.drop_succ_cons]

/-- Taking up to the index of the first `/` equals `takeWhile (· ≠ '/')`. -/
theorem take_findSub_slash (l : List Char) :
    l.take ((findSub ['/'] l).getD l.length) =
      l.takeWhile (fun c => c != '/') := by
  induction l with
  | nil => simp [findSub, leadsWith]
  | cons c t ih =>
    by_cases hc : c = '/'
    · subst hc
      have hlw : leadsWith ['/'] ('/' :: t) = true := by simp [leadsWith]
      simp [findSub, hlw, List.takeWhile]
    · have hlw : leadsWith ['/'] (c :: t) = false := by
        simp only [leadsWith, Bool.and_true]
        exact beq_eq_false_iff_ne.mpr (Ne.symm hc)
      have hcne : (c != '/') = true := by
        simp only [bne, Bool.not_eq_eq_eq_not, Bool.not_false]
        exact beq_eq_false_iff_ne.mpr hc
      cases hf : findSub ['/'] t with
      | none =>
        rw [hf] at ih
        simp [findSub, hlw, List.takeWhile, hcne, hf]
        simpa using ih
      | some j =>
        rw [hf] at ih
        simp [findSub, hlw, List.takeWhile, hcne, hf]
        simpa using ih

/-- `Curve::from_cbor` succeeds only on an integer crv label between 1
and 7. -/
theorem curve_from_cbor_ok_shape (map : CoseMap) (c : Curve)
    (h : Curve.from_cbor map = .ok c) :
    ∃ i : Int, map.get (-1) = some (.integer i) ∧ 1 ≤ i ∧ i ≤ 7 := by
  cases hg : map.get (-1) with
  | none => simp [Curve.from_cbor, hg] at h
  | some v =>
    cases v with
    | integer i =>
      refine ⟨i, rfl, ?_⟩
      simp only [Curve.from_cbor, hg] at h
      split_ifs at h <;> omega
    | bytes b => simp [Curve.from_cbor, hg] at h
    | text t => simp [Curve.from_cbor, hg] at h
    | array vs => simp [Curve.from_cbor, hg] at h

/-! ## Claim theorems -/

/-- C3: client-data validation succeeds exactly when the decoded type,
the challenge (byte-for-byte string equality) and the origin match the
expectations, and each failing check yields its dedicated error
(`InvalidWebAuthnType` — the spec's `WebAuthnTypeMismatch` —,
`ChallengeMismatch`, `OriginMismatch`), checked in that order. -/
theorem client_data_validate_checks (cd : ClientData) (ty : WebAuthnType)
    (cfg : WebAuthnConfig) (ch : String) :
    (cd.validate ty cfg ch = .ok () ↔
      (cd.ty = ty ∧ cd.challenge = ch ∧ cd.origin = cfg.rp_origin)) ∧
    (cd.ty ≠ ty →
      cd.validate ty cfg ch = .error (.InvalidWebAuthnType cd.ty ty)) ∧
    (cd.ty = ty → cd.challenge ≠ ch →
      cd.validate ty cfg ch = .error .ChallengeMismatch) ∧
    (cd.ty = ty → cd.challenge = ch → cd.origin ≠ cfg.rp_origin →
      cd.validate ty cfg ch = .error (.OriginMismatch cd.origin cfg.rp_origin)) := by
  unfold ClientData.validate
  by_cases h1 : cd.ty = ty
  · by_cases h2 : cd.challenge = ch
    · by_cases h3 : cd.origin = cfg.rp_origin
      · simp [h1, h2, h3]
      · simp [h1, h2, h3]
    · simp [h1, h2]
  · simp [h1]

/-- Witness for C3: a mismatched challenge is reported as
`ChallengeMismatch`. -/
theorem client_data_validate_checks_witness :
    ClientData.validate
      { ty := .Create, challenge := "a", origin := "o",
        cross_origin := false, token_binding := none }
      .Create { rp_origin := "o", rp_id := "o" } "b" =
      .error .ChallengeMismatch :=
  (client_data_validate_checks
    { ty := .Create, challenge := "a", origin := "o",
      cross_origin := false, token_binding := none }
    .Create { rp_origin := "o", rp_id := "o" } "b").2.2.1 rfl (by decide)

/-- Counterexample for C5: a 37-byte buffer with the AT flag (0x40) set
is accepted by `AuthData::parse` with no attested credential data — the
parser keys presence on the buffer length, not on the flag. -/
theorem auth_data_parse_ignores_at_flag :
    AuthData.parse pcFail adBytes37 =
      .ok { rp_id_hash := List.replicate 32 0, flags := 0x41, counter := 7,
            cred_data := none } ∧
    (0x41 : Nat) &&& 0x40 = 0x40 :=
  ⟨rfl, rfl⟩

/-- C5 (amended): for every buffer the decoder accepts, the decoded
result contains attested credential data iff the buffer is longer than
37 bytes; the AT flag plays no role. -/
theorem auth_data_parse_cred_iff_len (pc : List Nat → Except CoseError CoseMap)
    (data : List Nat) (ad : AuthData)
    (h : AuthData.parse pc data = .ok ad) :
    ad.cred_data.isSome ↔ 37 < data.length := by
  unfold AuthData.parse at h
  by_cases h32 : data.length < 32
  · simp [h32] at h
  · by_cases h37 : data.length < 37
    · simp [h32, h37] at h
    · simp only [h32, h37, if_false] at h
      by_cases hgt : 37 < data.length
      · simp only [hgt, if_true] at h
        cases hcd : CredentialData.parse pc (data.drop 37) with
        | panicked => rw [hcd] at h; cases h
        | error e => rw [hcd] at h; cases h
        | ok cd =>
          rw [hcd] at h
          simp only [POutcome.ok.injEq] at h
          subst h
          simp [hgt]
      · simp only [hgt, if_false] at h
        simp only [POutcome.ok.injEq] at h
        subst h
        simp [hgt]

/-- Witness for C5 (amended), at the accepted 37-byte buffer with flags
0x01. -/
theorem auth_data_parse_cred_iff_len_witness :
    (AuthData.mk (List.replicate 32 0) 1 7 none).cred_data.isSome ↔
      37 < adBytesGet.length :=
  auth_data_parse_cred_iff_len pcFail adBytesGet
    (AuthData.mk (List.replicate 32 0) 1 7 none) rfl

/-- C6: `WebAuthnConfig::new` keeps the origin unchanged and derives the
RP id by removing everything up to and including the first `://` (when
present) and everything from the first subsequent `/` onward; in
particular on the three example origins of the spec. -/
theorem webauthn_config_new_derivation :
    (∀ s : String, (WebAuthnConfig.new s).rp_origin = s ∧
      (WebAuthnConfig.new s).rp_id =
        String.mk (stripPathSpec (stripSchemeSpec s.data))) ∧
    (WebAuthnConfig.new "https://app.example.com").rp_id = "app.example.com" ∧
    (WebAuthnConfig.new "https://app.example.com/").rp_id = "app.example.com" ∧
    (WebAuthnConfig.new "app.example.com/x").rp_id = "app.example.com" := by
  refine ⟨fun s => ⟨rfl, ?_⟩, by decide, by decide, by decide⟩
  have hs := afterSchemeMarker_eq_findSub s.data
  unfold WebAuthnConfig.new stripSchemeSpec stripPathSpec
  rw [hs]
  cases hf : findSub [':', '/', '/'] s.data with
  | none =>
    simp only [hf, Option.map_none]
    rw [take_findSub_slash]
    simp
  | some j =>
    simp only [hf, Option.map_some]
    rw [take_findSub_slash]
    simp

/-- Counterexample for C7: a client-data object with `crossOrigin = true`
passes validation whenever type, challenge and origin match — the field
is never inspected. -/
theorem client_data_cross_origin_accepted :
    (ClientData.mk .Create "ch" "https://app.example.com" true none).cross_origin
      = true ∧
    ClientData.validate
      (ClientData.mk .Create "ch" "https://app.example.com" true none)
      .Create cfgW "ch" = .ok () :=
  ⟨rfl, rfl⟩

/-- C7 (amended): the default validation ignores `crossOrigin` entirely:
changing the field never changes the validation result. -/
theorem client_data_validate_ignores_cross_origin (cd : ClientData)
    (ty : WebAuthnType) (cfg : WebAuthnConfig) (ch : String) (b : Bool) :
    ClientData.validate { cd with cross_origin := b } ty cfg ch =
      cd.validate ty cfg ch :=
  rfl

/-- Counterexample for C8: a COSE map whose alg label (3) is ES256 (-7)
but whose crv label (-1) is 2 (P-384, not P-256) decodes successfully. -/
theorem es256_accepts_non_p256_curve :
    mapP384W.get 3 = some (.integer (-7)) ∧
    CoseKeyAlgorithm.from_cbor mapP384W =
      .ok (.ES256 { crv := .P384, x := some [0], y := some [0], d := none }) ∧
    Curve.P384 ≠ Curve.P256 :=
  ⟨by rfl, by rfl, by decide⟩

/-- C8 (amended): ES256 parameter decoding succeeds only if the crv
label (-1) is one of the seven recognised curve values 1..7 (not
necessarily P-256) and at least one of \x7bx (-2), y (-3)\x7d together or
d (-4) alone is present as a byte string. -/
theorem es256_from_cbor_only_if (map : CoseMap) (params : ES256Params)
    (h : ES256Params.from_cbor map = .ok params) :
    (∃ i : Int, map.get (-1) = some (.integer i) ∧ 1 ≤ i ∧ i ≤ 7) ∧
    ((∃ b, map.get (-4) = some (.bytes b)) ∨
      ((∃ b, map.get (-2) = some (.bytes b)) ∧
        (∃ b, map.get (-3) = some (.bytes b)))) := by
  have hshape : ∀ (v : Option Value) (l : String) (r : Option (List Nat)),
      ES256Params.fieldBytes v l = .ok r →
      (v = none ∧ r = none) ∨ ∃ b, v = some (.bytes b) ∧ r = some b := by
    intro v l r hv
    cases v with
    | none =>
      simp [ES256Params.fieldBytes] at hv
      exact .inl ⟨rfl, hv.symm⟩
    | some w =>
      cases w with
      | bytes b =>
        simp [ES256Params.fieldBytes] at hv
        exact .inr ⟨b, rfl, hv.symm⟩
      | integer i => simp [ES256Params.fieldBytes] at hv
      | text t => simp [ES256Params.fieldBytes] at hv
      | array vs => simp [ES256Params.fieldBytes] at hv
  unfold ES256Params.from_cbor at h
  cases hc : Curve.from_cbor map with
  | error e => rw [hc] at h; exact Except.noConfusion h
  | ok c =>
    rw [hc] at h
    refine ⟨curve_from_cbor_ok_shape map c hc, ?_⟩
    cases hx : ES256Params.fieldBytes (map.get (-2)) "cose.ec2.x" with
    | error e => rw [hx] at h; exact Except.noConfusion h
    | ok x =>
      rw [hx] at h
      cases hy : ES256Params.fieldBytes (map.get (-3)) "cose.ec2.y" with
      | error e => rw [hy] at h; exact Except.noConfusion h
      | ok y =>
        rw [hy] at h
        cases hd : ES256Params.fieldBytes (map.get (-4)) "cose.ec2.d" with
        | error e => rw [hd] at h; exact Except.noConfusion h
        | ok d =>
          rw [hd] at h
          rcases hshape _ _ _ hx with ⟨hxv, hxr⟩ | ⟨bx, hxv, hxr⟩ <;>
            rcases hshape _ _ _ hy with ⟨hyv, hyr⟩ | ⟨yb, hyv, hyr⟩ <;>
            rcases hshape _ _ _ hd with ⟨hdv, hdr⟩ | ⟨bd, hdv, hdr⟩ <;>
            subst hxr <;> subst hyr <;> subst hdr <;>
            first
            | exact Or.inl ⟨bd, hdv⟩
            | exact Or.inr ⟨⟨bx, hxv⟩, ⟨yb, hyv⟩⟩
            | simp at h

/-- Witness for C8 (amended): a private-only P-256 key. -/
theorem es256_from_cbor_only_if_witness :
    (∃ i : Int, mapP256dW.get (-1) = some (.integer i) ∧ 1 ≤ i ∧ i ≤ 7) ∧
    ((∃ b, mapP256dW.get (-4) = some (.bytes b)) ∨
      ((∃ b, mapP256dW.get (-2) = some (.bytes b)) ∧
        (∃ b, mapP256dW.get (-3) = some (.bytes b)))) :=
  es256_from_cbor_only_if mapP256dW
    { crv := .P256, x := none, y := none, d := some [3] } (by rfl)

/-- C9: the code panics instead of returning typed errors — the
register-tree `AttestationData::validate` executes
`panic!("attestion object: user not present")` when the user-present
flag is clear, and `AuthData::parse` panics (slice out of range) on a
10-byte buffer. -/
theorem validators_panic_on_bad_input :
    Register.AttestationData.validate (fun _ : List Nat => (none : Option Unit))
      { fmt := .FidoU2f { x5c := [], sig := [] },
        auth_data := { rp_id_hash := List.replicate 32 0, flags := 0,
                       counter := 0, aa_guid := List.replicate 16 0,
                       length := 0, cred_id := [], key := ckW } } = .panicked ∧
    AuthData.parse pcFail (List.replicate 10 0) = .panicked :=
  ⟨rfl, rfl⟩

/-- C10: whenever the x5c list of a fido-u2f statement does not have
length exactly 1 (zero certificates included), validation fails with
`TooManyX509Certificates`, independently of the signature verifier —
no signature verification is attempted. -/
theorem fidou2f_x5c_cardinality (Cert : Type)
    (parseCert : List Nat → Option Cert)
    (verifySig : Cert → List Nat → List Nat → Bool)
    (a : FidoU2fAttestation) (ad : AuthData) (h : List Nat)
    (hne : a.x5c.length ≠ 1) :
    a.validate parseCert verifySig ad h =
      .error (.U2fError .TooManyX509Certificates) := by
  simp [FidoU2fAttestation.validate, FidoU2fAttestation.get_cert, hne]

/-- Witness for C10: the empty certificate list. -/
theorem fidou2f_x5c_cardinality_witness :
    FidoU2fAttestation.validate (fun _ : List Nat => some ())
      (fun _ _ _ => true) { x5c := [], sig := [] }
      { rp_id_hash := [], flags := 0, counter := 0, cred_data := none } [] =
      .error (.U2fError .TooManyX509Certificates) :=
  fidou2f_x5c_cardinality Unit (fun _ => some ()) (fun _ _ _ => true)
    { x5c := [], sig := [] }
    { rp_id_hash := [], flags := 0, counter := 0, cred_data := none } []
    (by decide)

/-- Shape of a successful `get_cert`: exactly one certificate, and it
parsed. -/
theorem get_cert_ok_shape {Cert : Type} (parseCert : List Nat → Option Cert)
    (a : FidoU2fAttestation) (cert : Cert)
    (h : a.get_cert parseCert = .ok cert) :
    a.x5c.length = 1 ∧ parseCert (a.x5c.headD []) = some cert := by
  unfold FidoU2fAttestation.get_cert at h
  by_cases hl : a.x5c.length ≠ 1
  · simp [hl] at h
  · refine ⟨not_not.mp hl, ?_⟩
    rw [if_neg hl] at h
    cases hpc : parseCert (a.x5c.headD []) with
    | none => rw [hpc] at h; exact Except.noConfusion h
    | some c =>
      rw [hpc] at h
      exact congrArg some (Except.ok.inj h)

/-- Shape of a successful `to_raw`: both coordinates present and the
result is the X9.62 uncompressed encoding. -/
theorem to_raw_some_shape (p : ES256Params) (r : List Nat)
    (h : p.to_raw = some r) :
    ∃ x y, p.x = some x ∧ p.y = some y ∧ r = 0x04 :: (x ++ y) := by
  unfold ES256Params.to_raw at h
  cases hx : p.x with
  | none => rw [hx] at h; exact Option.noConfusion h
  | some x =>
    rw [hx] at h
    cases hy : p.y with
    | none => rw [hy] at h; exact Option.noConfusion h
    | some y =>
      rw [hy] at h
      exact ⟨x, y, rfl, rfl, (Option.some.inj h).symm⟩

/-- Shape of a successful `AuthData::public_key`: attested credential
present, its key an ES256 key with both public coordinates, and the
result `0x04 || x || y`. -/
theorem public_key_ok_shape (ad : AuthData) (pk : List Nat)
    (h : ad.public_key = .ok pk) :
    ∃ cd params x y, ad.cred_data = some cd ∧
      cd.cred_pub_key.alg = .ES256 params ∧
      params.x = some x ∧ params.y = some y ∧ pk = 0x04 :: (x ++ y) := by
  cases hcd : ad.cred_data with
  | none =>
    simp [AuthData.public_key, hcd] at h
  | some cd =>
    simp only [AuthData.public_key, hcd] at h
    cases halg : cd.cred_pub_key.alg with
    | ES256 params =>
      have hraw : cd.cred_pub_key.as_raw = params.to_raw := by
        simp only [CoseKey.as_raw, halg]
      rw [hraw] at h
      cases htr : params.to_raw with
      | none => rw [htr] at h; exact Except.noConfusion h
      | some raw =>
        rw [htr] at h
        obtain ⟨x, y, hx, hy, hr⟩ := to_raw_some_shape params raw htr
        exact ⟨cd, params, x, y, rfl, halg, hx, hy,
          (Except.ok.inj h) ▸ hr⟩

/-- C1: whenever fido-u2f attestation validation succeeds, the
signature was verified (with the parsed certificate) over exactly
`0x00 || rpIdHash || clientDataHash || credentialId || publicKeyU2F`,
where `publicKeyU2F = 0x04 || x || y` is the X9.62 uncompressed
encoding of the attested ES256 public key, and the returned value is
the pair `(credentialId, publicKeyU2F)`. -/
theorem fidou2f_validate_success_shape (Cert : Type)
    (parseCert : List Nat → Option Cert)
    (verifySig : Cert → List Nat → List Nat → Bool)
    (a : FidoU2fAttestation) (ad : AuthData) (h : List Nat)
    (out : List Nat × List Nat)
    (hok : a.validate parseCert verifySig ad h = .ok out) :
    ∃ (cert : Cert) (cd : CredentialData) (params : ES256Params)
      (x y : List Nat),
      a.x5c.length = 1 ∧
      parseCert (a.x5c.headD []) = some cert ∧
      ad.cred_data = some cd ∧
      cd.cred_pub_key.alg = .ES256 params ∧
      params.x = some x ∧ params.y = some y ∧
      out = (cd.cred_id, 0x04 :: (x ++ y)) ∧
      verifySig cert
        (0x00 :: (ad.rp_id_hash ++ h ++ cd.cred_id ++ (0x04 :: (x ++ y))))
        a.sig = true := by
  cases hgc : a.get_cert parseCert with
  | error e =>
    simp [FidoU2fAttestation.validate, hgc] at hok
  | ok cert =>
    simp only [FidoU2fAttestation.validate, hgc] at hok
    obtain ⟨hlen, hpc⟩ := get_cert_ok_shape parseCert a cert hgc
    cases hpk : ad.public_key with
    | error e => simp [hpk] at hok
    | ok pubkey =>
      simp only [hpk] at hok
      obtain ⟨cd, params, x, y, hcd, halg, hx, hy, hpkv⟩ :=
        public_key_ok_shape ad pubkey hpk
      cases hcid : ad.credential_id with
      | error e => simp [hcid] at hok
      | ok cred_id =>
        simp only [hcid] at hok
        have hcidv : cred_id = cd.cred_id := by
          simp only [AuthData.credential_id, hcd] at hcid
          exact (Except.ok.inj hcid).symm
        by_cases hv : verifySig cert
            (0x00 :: (ad.rp_id_hash ++ h ++ cred_id ++ pubkey)) a.sig = true
        · rw [if_pos hv] at hok
          refine ⟨cert, cd, params, x, y, hlen, hpc, hcd, halg, hx, hy, ?_, ?_⟩
          · rw [← Except.ok.inj hok, hcidv, hpkv]
          · rw [← hcidv, ← hpkv]
            exact hv
        · rw [if_neg hv] at hok
          exact Except.noConfusion hok

/-- Witness for C1, at a concrete successful validation. -/
theorem fidou2f_validate_success_shape_witness :
    ∃ (cert : Unit) (cd : CredentialData) (params : ES256Params)
      (x y : List Nat),
      attFixW.x5c.length = 1 ∧
      (fun _ : List Nat => some ()) (attFixW.x5c.headD []) = some cert ∧
      adFixW.cred_data = some cd ∧
      cd.cred_pub_key.alg = .ES256 params ∧
      params.x = some x ∧ params.y = some y ∧
      (([9], [4, 170, 187]) : List Nat × List Nat) =
        (cd.cred_id, 0x04 :: (x ++ y)) ∧
      (fun _ _ _ => true) cert
        (0x00 :: (adFixW.rp_id_hash ++ [8] ++ cd.cred_id ++ (0x04 :: (x ++ y))))
        attFixW.sig = true :=
  fidou2f_validate_success_shape Unit (fun _ => some ()) (fun _ _ _ => true)
    attFixW adFixW [8] ([9], [4, 170, 187]) (by rfl)

/-- Counterexample for C2: a successful authentication whose new sign
count 7 strictly exceeds the stored count 5 still triggers the
sign-count warning (the code warns whenever the counts differ), and the
success value is only the printed-warning list — no updated sign count
or user handle is returned. -/
theorem authenticate_warns_on_increased_count :
    authenticate primsGetW formGetW cfgW "ch" [deviceW] = .ok [(5, 7)] ∧
    deviceW.count < 7 :=
  ⟨by rfl, by decide⟩

/-- C2 (amended): a successful authentication returns only the list of
printed sign-count warnings (no sign count, no user handle): exactly
one matching device exists, its signature verified, and the warning is
printed iff the stored count differs from the received count (including
when the received count is larger). -/
theorem get_response_validate_success_shape (p : Prims) (r : GetResponse)
    (ty : WebAuthnType) (cfg : WebAuthnConfig) (ch id : String)
    (devices : List Device) (out : List (Nat × Nat))
    (hok : r.validate p ty cfg ch id devices = .ok out) :
    ∃ (ad : AuthData) (cred_id : List Nat) (device : Device),
      AuthData.parse p.parseCoseCbor r.authenticator_data = .ok ad ∧
      p.b64UrlNoPad id = .ok cred_id ∧
      devices.filter (fun d => d.id == cred_id) = [device] ∧
      p.ecdsaVerify device.pk
        (r.authenticator_data ++ p.sha256 r.client_data_json) r.signature
        = true ∧
      out = (if device.count ≠ ad.counter
             then [(device.count, ad.counter)] else []) := by
  cases h1 : p.parseClientDataJson r.client_data_json with
  | error e => simp [GetResponse.validate, h1] at hok
  | ok cdta =>
    simp only [GetResponse.validate, h1] at hok
    cases h2 : cdta.validate ty cfg ch with
    | error e => simp [h2] at hok
    | ok u =>
      simp only [h2] at hok
      cases h3 : AuthData.parse p.parseCoseCbor r.authenticator_data with
      | panicked => simp [h3] at hok
      | error e => simp [h3] at hok
      | ok ad =>
        simp only [h3] at hok
        cases h4 : ad.validate p.sha256 cfg with
        | error e => simp [h4] at hok
        | ok u2 =>
          simp only [h4] at hok
          cases h5 : p.b64UrlNoPad id with
          | error e => simp [h5] at hok
          | ok cred_id =>
            simp only [h5] at hok
            by_cases h6 :
                (devices.filter (fun d => d.id == cred_id)).length ≠ 1
            · rw [if_pos h6] at hok
              exact POutcome.noConfusion hok
            · rw [if_neg h6] at hok
              obtain ⟨device, hdev⟩ :=
                List.length_eq_one.mp (not_not.mp h6)
              rw [hdev] at hok
              simp only [List.headD_cons] at hok
              by_cases h7 : p.ecdsaVerify device.pk
                  (r.authenticator_data ++ p.sha256 r.client_data_json)
                  r.signature = true
              · rw [if_pos h7] at hok
                refine ⟨ad, cred_id, device, rfl, rfl, hdev, h7, ?_⟩
                by_cases h8 : device.count ≠ ad.counter
                · rw [if_pos h8] at hok
                  rw [if_pos h8]
                  exact (POutcome.ok.inj hok).symm
                · rw [if_neg h8] at hok
                  rw [if_neg h8]
                  exact (POutcome.ok.inj hok).symm
              · rw [if_neg h7] at hok
                exact POutcome.noConfusion hok

/-- Witness for C2 (amended), at the concrete successful assertion. -/
theorem get_response_validate_success_shape_witness :
    ∃ (ad : AuthData) (cred_id : List Nat) (device : Device),
      AuthData.parse primsGetW.parseCoseCbor getRespW.authenticator_data
        = .ok ad ∧
      primsGetW.b64UrlNoPad "credid" = .ok cred_id ∧
      [deviceW].filter (fun d => d.id == cred_id) = [device] ∧
      primsGetW.ecdsaVerify device.pk
        (getRespW.authenticator_data ++
          primsGetW.sha256 getRespW.client_data_json) getRespW.signature
        = true ∧
      ([(5, 7)] : List (Nat × Nat)) =
        (if device.count ≠ ad.counter
         then [(device.count, ad.counter)] else []) :=
  get_response_validate_success_shape primsGetW getRespW .Get cfgW "ch"
    "credid" [deviceW] [(5, 7)] (by rfl)

/-- Counterexample for C4: a registration that succeeds and returns a
`Device` whose credential id `[9]` differs from the (decoded) `id`
field `[1]` of the response — no cross-check is performed and no
`CredentialIdMismatch` error exists. -/
theorem register_succeeds_despite_id_mismatch :
    register (fun _ : List Nat => some ()) (fun _ _ _ => true) primsCreateW
      formCreateW cfgW "ch" = .ok (Device.new [9] [4, 170, 187] 7) ∧
    primsCreateW.b64UrlNoPad formCreateW.id = .ok [1] ∧
    ([9] : List Nat) ≠ [1] :=
  ⟨by rfl, by rfl, by decide⟩

/-- C4 (amended): registration never reads the `id`/`rawId` (or `type`)
fields of the response: its outcome is entirely determined by the
inner payload, the configuration and the challenge, so no credential-id
cross-check can fail. -/
theorem register_independent_of_id_fields (Cert : Type)
    (parseCert : List Nat → Option Cert)
    (verifySig : Cert → List Nat → List Nat → Bool)
    (p : Prims) (resp : ResponseType) (ty1 ty2 id1 id2 rid1 rid2 : String)
    (cfg : WebAuthnConfig) (challenge : String) :
    register parseCert verifySig p
      { id := id1, raw_id := rid1, response := resp, ty := ty1 } cfg challenge =
    register parseCert verifySig p
      { id := id2, raw_id := rid2, response := resp, ty := ty2 } cfg challenge :=
  rfl

end AuthRs
